import Mathlib

/-!
Verification of the PDF text-extraction HTTP service (`src/pdf-text.py`).

The handler `extract_pdf` is translated from the source: it reads the parsed
JSON body, looks up `filename` and `filecontent`, base64-decodes the content,
writes the bytes to the fixed scratch path `/tmp/input.pdf`, runs the external
PDF extractor on the file just written, filters the returned elements to those
with truthy text, and returns a JSON object pairing the filename with the
text list.  External collaborators (the base64 decoder, the PDFQuery library,
the Flask framework, Python's `int`) are modelled from the spec as noted on
their definitions.
-/

namespace PdfText

/-- JSON key for the file name, as it appears in the source. -/
def kFilename : String := "filename"

/-- JSON key for the base64 payload, as it appears in the source. -/
def kFilecontent : String := "filecontent"

/-- JSON key for the extracted text list in the response. -/
def kText : String := "text"

/-- The fixed scratch location the handler writes to. -/
def scratchPath : String := "/tmp/input.pdf"

/-- The host the server binds to in `app.run(host="0.0.0.0", port=port)`. -/
def hostAll : String := "0.0.0.0"

/-- The empty string, the falsy text value in Python truthiness tests. -/
def emptyS : String := ""

/-- Raw bytes of a decoded document. -/
abbrev Bytes := List Nat

/-- A JSON value, the shape of parsed request bodies and of responses. -/
inductive Json where
  | null
  | bool (b : Bool)
  | num (n : Int)
  | str (s : String)
  | arr (elems : List Json)
  | obj (fields : List (String × Json))

/-- The Python exceptions the handler can raise: a malformed request body
(`request.json` failure), `KeyError` from `data[...]`, `TypeError` from
indexing a non-dict or passing a non-string to the decoder,
`binascii.Error` from `base64.b64decode`, a PDFQuery parse failure, and a
missing scratch file. -/
inductive PyError where
  | badJson
  | keyError
  | typeError
  | decodeError
  | pdfError
  | fileNotFound

/-- Lookup in a JSON object's field list; a duplicated key resolves to the
last occurrence, as Python's `json` module builds dicts. -/
def lookupLast (fields : List (String × Json)) (k : String) : Option Json :=
  match fields with
  | [] => none
  | (k', v) :: rest =>
    match lookupLast rest k with
    | some r => some r
    | none => if k' = k then some v else none

/-- Python subscription `data[k]`: `KeyError` when the key is absent from a
dict, `TypeError` when the value is not a dict. -/
def pyGetItem (j : Json) (k : String) : Except PyError Json :=
  match j with
  | Json.obj fields =>
    match lookupLast fields k with
    | some v => Except.ok v
    | none => Except.error PyError.keyError
  | _ => Except.error PyError.typeError

/-- One `LTTextLineHorizontal` layout element returned by the extractor; its
`text` attribute is either absent (`None`) or a string. -/
structure LTElement where
  text : Option String

/-- The contribution of one element to the list comprehension
`[t.text for t in text_elements if t.text]`: the text when it is truthy
(present and non-empty), nothing otherwise. -/
def keptText (t : LTElement) : Option String :=
  match t.text with
  | some s => if s = emptyS then none else some s
  | none => none

/-- Modelled from the spec: the two external collaborators the handler
delegates to, which are not part of this repository.  `b64decode` is
`base64.b64decode`, failing (`none`) on input that is not valid base64.
`pdfExtract` is PDFQuery's load plus the `LTTextLineHorizontal` query on the
bytes read from the given file, failing (`none`) on an unparsable document,
and otherwise returning the horizontal text-line elements in the library's
own order. -/
structure Env where
  b64decode : String → Option Bytes
  pdfExtract : Bytes → Option (List LTElement)

/-- The filesystem state the service touches: the contents of the single
scratch file `/tmp/input.pdf` (`none` when the file does not exist). -/
structure FS where
  tmpInput : Option Bytes

/-- An HTTP response: a status code and, for successful JSON responses, the
serialized body. -/
structure HttpResponse where
  status : Nat
  body : Option Json

/-- The successful response body built by the source:
`jsonify({"filename": filename, "text": text})`. -/
def mkOkBody (filename : Json) (text : List String) : Json :=
  Json.obj [(kFilename, filename), (kText, Json.arr (text.map Json.str))]

/-- The handler `extract_pdf` from the source, with the request body already
parsed (`none` models a malformed JSON body, on which `request.json` raises
inside the handler).  Steps, in source order: `data['filename']`,
`base64.b64decode(data['filecontent'])`, write the bytes to the scratch file
replacing its contents, run the extractor on the file just written, keep the
truthy texts, and return the JSON body.  The pair threads the scratch-file
state; no branch deletes the file. -/
def extract_pdf (env : Env) (body : Option Json) (fs : FS) :
    Except PyError Json × FS :=
  match body with
  | none => (Except.error PyError.badJson, fs)
  | some data =>
    match pyGetItem data kFilename with
    | Except.error e => (Except.error e, fs)
    | Except.ok filename =>
      match pyGetItem data kFilecontent with
      | Except.error e => (Except.error e, fs)
      | Except.ok (Json.str content) =>
        match env.b64decode content with
        | none => (Except.error PyError.decodeError, fs)
        | some pdf_bytes =>
          let fs' : FS := ⟨some pdf_bytes⟩
          match fs'.tmpInput with
          | none => (Except.error PyError.fileNotFound, fs')
          | some fileBytes =>
            match env.pdfExtract fileBytes with
            | none => (Except.error PyError.pdfError, fs')
            | some text_elements =>
              (Except.ok (mkOkBody filename (text_elements.filterMap keptText)),
               fs')
      | Except.ok _ => (Except.error PyError.typeError, fs)

/-- Modelled from the spec: the HTTP framework (Flask), which is external to
this repository, turns a normal return of the handler into an HTTP 200 with
the JSON body, and an unhandled exception into a generic 500-class server
error response with no structured body. -/
def handle (env : Env) (body : Option Json) (fs : FS) : HttpResponse × FS :=
  match extract_pdf env body fs with
  | (Except.ok j, fs') => (⟨200, some j⟩, fs')
  | (Except.error _, fs') => (⟨500, none⟩, fs')

/-- The `text` field of a response body, when the response has a JSON body
with that field. -/
def respText (r : HttpResponse) : Option Json :=
  match r.body with
  | some j =>
    match pyGetItem j kText with
    | Except.ok v => some v
    | Except.error _ => none
  | none => none

/-- Value of a decimal digit character, `none` for a non-digit. -/
def digitVal (c : Char) : Option Nat :=
  if c.toNat < 48 then none
  else if 57 < c.toNat then none
  else some (c.toNat - 48)

/-- Parse a non-empty run of decimal digits. -/
def parseDigits (cs : List Char) : Option Nat :=
  match cs with
  | [] => none
  | _ =>
    cs.foldl (fun acc c =>
      match acc, digitVal c with
      | some a, some d => some (a * 10 + d)
      | _, _ => none) (some 0)

/-- Python whitespace, as stripped by `int`. -/
def isPySpace (c : Char) : Bool :=
  c.toNat = 32 || c.toNat = 9 || c.toNat = 10 || c.toNat = 11 ||
    c.toNat = 12 || c.toNat = 13

/-- Strip whitespace from both ends of a character list. -/
def stripChars (cs : List Char) : List Char :=
  ((cs.dropWhile isPySpace).reverse.dropWhile isPySpace).reverse

/-- Modelled from the spec / Python's builtin `int` applied to a string:
surrounding whitespace is stripped, an optional sign precedes a non-empty
digit run, and anything else raises `ValueError` (`none`). -/
def pyInt (s : String) : Option Int :=
  match stripChars s.toList with
  | [] => none
  | c :: rest =>
    if c.toNat = 45 then (parseDigits rest).map (fun n => -(n : Int))
    else if c.toNat = 43 then (parseDigits rest).map (fun n => (n : Int))
    else (parseDigits (c :: rest)).map (fun n => (n : Int))

/-- The default port in `int(os.environ.get("PORT", 5000))`. -/
def defaultPort : Int := 5000

/-- The port computation of the main block: the `PORT` environment variable
parsed as an integer when set, 5000 otherwise. -/
def serverPort (envPORT : Option String) : Option Int :=
  match envPORT with
  | none => some defaultPort
  | some s => pyInt s

/-- The (host, port) pair passed to `app.run` by the main block, given the
value of the `PORT` environment variable; `none` when `int` raises. -/
def runConfig (envPORT : Option String) : Option (String × Int) :=
  (serverPort envPORT).map (fun p => (hostAll, p))

/-! Concrete test data for witness theorems. -/

/-- A sample file name. -/
def sName : String := "doc.pdf"

/-- A second sample file name. -/
def sName2 : String := "other.pdf"

/-- A key not consulted by the handler. -/
def kExtra : String := "extra"

/-- A base64 string the sample environment accepts. -/
def sGood : String := "AAEC"

/-- A base64 string for a document with no extractable text. -/
def sEmptyDoc : String := "CQ=="

/-- A string that is not valid base64. -/
def sBad : String := "%%"

/-- A sample port value string. -/
def sPort : String := "8080"

/-- Decoded bytes of `sGood`. -/
def bsA : Bytes := [0, 1, 2]

/-- Decoded bytes of `sEmptyDoc`. -/
def bsB : Bytes := [9]

/-- A sample string of extracted text. -/
def sHello : String := "hello"

/-- An element with truthy text. -/
def elemHello : LTElement := ⟨some sHello⟩

/-- An element whose text attribute is absent. -/
def elemNone : LTElement := ⟨none⟩

/-- An element whose text attribute is the empty string. -/
def elemEmpty : LTElement := ⟨some emptyS⟩

/-- Extractor output for `bsA`. -/
def elemsA : List LTElement := [elemHello, elemNone, elemEmpty]

/-- Extractor output for `bsB`: elements exist but none has truthy text. -/
def elemsB : List LTElement := [elemNone, elemEmpty]

/-- A concrete environment for witnesses: decodes `sGood` and `sEmptyDoc`,
rejects everything else; parses `bsA` and `bsB`, rejects everything else. -/
def envGood : Env :=
  ⟨fun s =>
      if s = sGood then some bsA
      else if s = sEmptyDoc then some bsB
      else none,
   fun bs =>
      if bs = bsA then some elemsA
      else if bs = bsB then some elemsB
      else none⟩

/-- A well-formed request body. -/
def dataGood : Json :=
  Json.obj [(kFilename, Json.str sName), (kFilecontent, Json.str sGood)]

/-- A body with the same `filecontent` as `dataGood` but a different
`filename` and an extra field. -/
def dataGood2 : Json :=
  Json.obj [(kFilename, Json.str sName2), (kExtra, Json.bool true),
            (kFilecontent, Json.str sGood)]

/-- A body whose document decodes but contains no extractable text. -/
def dataEmptyDoc : Json :=
  Json.obj [(kFilename, Json.str sName2), (kFilecontent, Json.str sEmptyDoc)]

/-- A body whose `filecontent` is not valid base64. -/
def dataBad : Json :=
  Json.obj [(kFilename, Json.str sName), (kFilecontent, Json.str sBad)]

/-- An initial filesystem state with no scratch file. -/
def fs0 : FS := ⟨none⟩

/-- A filesystem state with stale bytes in the scratch file. -/
def fsStale : FS := ⟨some bsB⟩

/-! Helper lemmas. -/

/-- Every text kept by the comprehension filter came from an element whose
text is exactly that non-empty string. -/
theorem keptText_eq_some (t : LTElement) (s : String) (h : keptText t = some s) :
    t.text = some s ∧ s ≠ emptyS := by
  cases ht : t.text with
  | none => simp [keptText, ht] at h
  | some s' =>
    simp only [keptText, ht] at h
    by_cases he : s' = emptyS
    · rw [if_pos he] at h; exact absurd h (by simp)
    · rw [if_neg he] at h
      cases h
      exact ⟨rfl, he⟩

/-- The kept texts form an order-preserving selection from the texts of the
extractor's elements. -/
theorem keptText_sublist (elems : List LTElement) :
    (elems.filterMap keptText).Sublist
      (elems.map (fun e => e.text.getD emptyS)) := by
  induction elems with
  | nil => simp
  | cons e rest ih =>
    rw [List.filterMap_cons, List.map_cons]
    cases hk : keptText e with
    | none => exact ih.cons _
    | some t =>
      have he : e.text.getD emptyS = t := by
        rw [(keptText_eq_some e t hk).1]
        rfl
      rw [he]
      exact ih.cons₂ t

/-- When no element has truthy text the comprehension is empty. -/
theorem keptText_filterMap_nil (elems : List LTElement)
    (h : ∀ e ∈ elems, keptText e = none) : elems.filterMap keptText = [] := by
  induction elems with
  | nil => rfl
  | cons e rest ih =>
    rw [List.filterMap_cons, h e (List.mem_cons_self e rest)]
    exact ih (fun x hx => h x (List.mem_cons_of_mem e hx))

/-! Claim theorems. -/

/-- C1: a request whose `filecontent` is not valid base64 makes the handler
fail with the decode error, and the response is a 500 server error, never an
HTTP 200. -/
theorem c1_invalid_base64_no_200 (env : Env) (data fn : Json) (fs : FS)
    (s : String)
    (hfn : pyGetItem data kFilename = Except.ok fn)
    (hfc : pyGetItem data kFilecontent = Except.ok (Json.str s))
    (hdec : env.b64decode s = none) :
    (extract_pdf env (some data) fs).1 = Except.error PyError.decodeError ∧
    (handle env (some data) fs).1.status = 500 ∧
    ¬ (handle env (some data) fs).1.status = 200 := by
  simp [extract_pdf, handle, hfn, hfc, hdec]

/-- C1 witness at a concrete invalid-base64 request. -/
theorem c1_witness :
    (extract_pdf envGood (some dataBad) fs0).1 = Except.error PyError.decodeError ∧
    (handle envGood (some dataBad) fs0).1.status = 500 ∧
    ¬ (handle envGood (some dataBad) fs0).1.status = 200 :=
  c1_invalid_base64_no_200 envGood dataBad (Json.str sName) fs0 sBad rfl rfl rfl

/-- C2: in sequential handling, the second request's response is determined
entirely by its own decoded document: the bytes written for it replace the
scratch file before extraction, so the result is independent of the first
request and of the initial filesystem state. -/
theorem c2_sequential_own_document (env : Env) (b1 : Option Json)
    (data2 fn2 : Json) (fs : FS) (s2 : String) (bs2 : Bytes)
    (elems2 : List LTElement)
    (hfn : pyGetItem data2 kFilename = Except.ok fn2)
    (hfc : pyGetItem data2 kFilecontent = Except.ok (Json.str s2))
    (hdec : env.b64decode s2 = some bs2)
    (hext : env.pdfExtract bs2 = some elems2) :
    (handle env (some data2) (handle env b1 fs).2).1 =
      ⟨200, some (mkOkBody fn2 (elems2.filterMap keptText))⟩ := by
  simp [handle, extract_pdf, hfn, hfc, hdec, hext]

/-- C2 witness: a valid request after an invalid one still extracts its own
document. -/
theorem c2_witness :
    (handle envGood (some dataGood) (handle envGood (some dataBad) fs0).2).1 =
      ⟨200, some (mkOkBody (Json.str sName) (elemsA.filterMap keptText))⟩ :=
  c2_sequential_own_document envGood (some dataBad) dataGood (Json.str sName)
    fs0 sGood bsA elemsA rfl rfl rfl rfl

/-- C3: on success the response's text list is the comprehension over the
extractor's elements, every member is non-empty, and the list is an
order-preserving selection from the extractor's element texts. -/
theorem c3_text_nonempty_ordered (env : Env) (data fn : Json) (fs : FS)
    (s : String) (bs : Bytes) (elems : List LTElement)
    (hfn : pyGetItem data kFilename = Except.ok fn)
    (hfc : pyGetItem data kFilecontent = Except.ok (Json.str s))
    (hdec : env.b64decode s = some bs)
    (hext : env.pdfExtract bs = some elems) :
    (handle env (some data) fs).1 =
      ⟨200, some (mkOkBody fn (elems.filterMap keptText))⟩ ∧
    (∀ t ∈ elems.filterMap keptText, t ≠ emptyS) ∧
    (elems.filterMap keptText).Sublist
      (elems.map (fun e => e.text.getD emptyS)) := by
  refine ⟨by simp [handle, extract_pdf, hfn, hfc, hdec, hext], ?_, keptText_sublist elems⟩
  intro t ht
  rw [List.mem_filterMap] at ht
  obtain ⟨e, _, hk⟩ := ht
  exact (keptText_eq_some e t hk).2

/-- C3 witness at a concrete successful request. -/
theorem c3_witness :
    (handle envGood (some dataGood) fs0).1 =
      ⟨200, some (mkOkBody (Json.str sName) (elemsA.filterMap keptText))⟩ :=
  (c3_text_nonempty_ordered envGood dataGood (Json.str sName) fs0 sGood bsA
    elemsA rfl rfl rfl rfl).1

/-- C4: a malformed JSON body, or a body lacking `filename` or lacking
`filecontent`, makes the handler raise, and the framework answers with a 500
server error, never an HTTP 200. -/
theorem c4_missing_fields_500 (env : Env) (body : Option Json) (fs : FS)
    (h : body = none ∨ ∃ data, body = some data ∧
      (pyGetItem data kFilename = Except.error PyError.keyError ∨
       pyGetItem data kFilecontent = Except.error PyError.keyError)) :
    (handle env body fs).1.status = 500 ∧
    ¬ (handle env body fs).1.status = 200 := by
  rcases h with h | ⟨data, hb, h⟩
  · subst h; simp [handle, extract_pdf]
  · subst hb
    rcases h with h | h
    · simp [handle, extract_pdf, h]
    · cases hfn : pyGetItem data kFilename with
      | error e => simp [handle, extract_pdf, hfn]
      | ok fn => simp [handle, extract_pdf, hfn, h]

/-- C4 witness at a malformed JSON body. -/
theorem c4_witness :
    (handle envGood none fs0).1.status = 500 ∧
    ¬ (handle envGood none fs0).1.status = 200 :=
  c4_missing_fields_500 envGood none fs0 (Or.inl rfl)

/-- C5: on success the response body carries the request's `filename` value
unchanged, whatever the decoded content was. -/
theorem c5_filename_echoed (env : Env) (data fn : Json) (fs : FS) (s : String)
    (bs : Bytes) (elems : List LTElement)
    (hfn : pyGetItem data kFilename = Except.ok fn)
    (hfc : pyGetItem data kFilecontent = Except.ok (Json.str s))
    (hdec : env.b64decode s = some bs)
    (hext : env.pdfExtract bs = some elems) :
    ∃ j, (handle env (some data) fs).1.body = some j ∧
      pyGetItem j kFilename = Except.ok fn := by
  refine ⟨mkOkBody fn (elems.filterMap keptText), ?_, ?_⟩
  · simp [handle, extract_pdf, hfn, hfc, hdec, hext]
  · rfl

/-- C5 witness at a concrete successful request. -/
theorem c5_witness :
    ∃ j, (handle envGood (some dataGood) fs0).1.body = some j ∧
      pyGetItem j kFilename = Except.ok (Json.str sName) :=
  c5_filename_echoed envGood dataGood (Json.str sName) fs0 sGood bsA elemsA
    rfl rfl rfl rfl

/-- C6: when the extractor returns no element with truthy text, the response's
text field is the empty list. -/
theorem c6_no_text_empty_list (env : Env) (data fn : Json) (fs : FS)
    (s : String) (bs : Bytes) (elems : List LTElement)
    (hfn : pyGetItem data kFilename = Except.ok fn)
    (hfc : pyGetItem data kFilecontent = Except.ok (Json.str s))
    (hdec : env.b64decode s = some bs)
    (hext : env.pdfExtract bs = some elems)
    (hempty : ∀ e ∈ elems, keptText e = none) :
    (handle env (some data) fs).1 = ⟨200, some (mkOkBody fn [])⟩ := by
  have h0 : elems.filterMap keptText = [] := keptText_filterMap_nil elems hempty
  simp [handle, extract_pdf, hfn, hfc, hdec, hext, h0]

/-- C6 witness: a document whose elements all lack truthy text yields an
empty text list. -/
theorem c6_witness :
    (handle envGood (some dataEmptyDoc) fs0).1 =
      ⟨200, some (mkOkBody (Json.str sName2) [])⟩ :=
  c6_no_text_empty_list envGood dataEmptyDoc (Json.str sName2) fs0 sEmptyDoc
    bsB elemsB rfl rfl rfl rfl
    (by simp [elemsB, elemNone, elemEmpty, keptText, emptyS])

/-- C7: whenever the base64 decode succeeds, the decoded bytes are written to
the scratch file, replacing whatever it held before (the post-state is the
same for every prior state), and the file is never deleted afterwards, on
the success path and on the parse-failure path alike. -/
theorem c7_scratch_overwritten_kept (env : Env) (data fn : Json) (s : String)
    (bs : Bytes)
    (hfn : pyGetItem data kFilename = Except.ok fn)
    (hfc : pyGetItem data kFilecontent = Except.ok (Json.str s))
    (hdec : env.b64decode s = some bs) :
    ∀ fs : FS, (handle env (some data) fs).2.tmpInput = some bs ∧
      ¬ (handle env (some data) fs).2.tmpInput = none := by
  intro fs
  cases hext : env.pdfExtract bs with
  | none => simp [handle, extract_pdf, hfn, hfc, hdec, hext]
  | some elems => simp [handle, extract_pdf, hfn, hfc, hdec, hext]

/-- C7 witness: starting from a scratch file holding stale bytes, the decoded
bytes replace them. -/
theorem c7_witness :
    (handle envGood (some dataGood) fsStale).2.tmpInput = some bsA ∧
    ¬ (handle envGood (some dataGood) fsStale).2.tmpInput = none :=
  c7_scratch_overwritten_kept envGood dataGood (Json.str sName) sGood bsA
    rfl rfl rfl fsStale

/-- C8: the main block binds to all interfaces; the port defaults to 5000
when the `PORT` environment variable is unset and is the parsed value of the
variable when set. -/
theorem c8_port_and_host (s : String) (n : Int) (hp : pyInt s = some n) :
    runConfig none = some (hostAll, 5000) ∧
    runConfig (some s) = some (hostAll, n) := by
  constructor
  · rfl
  · simp [runConfig, serverPort, hp]

/-- C8 witness: the environment value 8080 is used as the port. -/
theorem c8_witness :
    runConfig none = some (hostAll, 5000) ∧
    runConfig (some sPort) = some (hostAll, 8080) :=
  c8_port_and_host sPort 8080 rfl

/-- C9: two requests with the same `filecontent` receive the same text field,
whatever their `filename` values, extra body fields, and prior filesystem
states. -/
theorem c9_text_depends_only_on_content (env : Env) (d1 d2 fn1 fn2 : Json)
    (fs1 fs2 : FS) (s : String)
    (hfn1 : pyGetItem d1 kFilename = Except.ok fn1)
    (hfn2 : pyGetItem d2 kFilename = Except.ok fn2)
    (hfc1 : pyGetItem d1 kFilecontent = Except.ok (Json.str s))
    (hfc2 : pyGetItem d2 kFilecontent = Except.ok (Json.str s)) :
    respText (handle env (some d1) fs1).1 =
      respText (handle env (some d2) fs2).1 := by
  cases hdec : env.b64decode s with
  | none => simp [handle, extract_pdf, respText, hfn1, hfn2, hfc1, hfc2, hdec]
  | some bs =>
    cases hext : env.pdfExtract bs with
    | none =>
      simp [handle, extract_pdf, respText, hfn1, hfn2, hfc1, hfc2, hdec, hext]
    | some elems =>
      have h1 : (handle env (some d1) fs1).1 =
          ⟨200, some (mkOkBody fn1 (elems.filterMap keptText))⟩ := by
        simp [handle, extract_pdf, hfn1, hfc1, hdec, hext]
      have h2 : (handle env (some d2) fs2).1 =
          ⟨200, some (mkOkBody fn2 (elems.filterMap keptText))⟩ := by
        simp [handle, extract_pdf, hfn2, hfc2, hdec, hext]
      rw [h1, h2]
      rfl

/-- C9 witness: same `filecontent`, different filenames, an extra field, and
different prior filesystem states yield the same text field. -/
theorem c9_witness :
    respText (handle envGood (some dataGood) fs0).1 =
      respText (handle envGood (some dataGood2) fsStale).1 :=
  c9_text_depends_only_on_content envGood dataGood dataGood2 (Json.str sName)
    (Json.str sName2) fs0 fsStale sGood rfl rfl rfl rfl

/-- A successful handler return is always the two-field body built by
`jsonify`. -/
theorem extract_pdf_ok_shape (env : Env) (body : Option Json) (fs : FS)
    (j : Json) (fs' : FS)
    (h : extract_pdf env body fs = (Except.ok j, fs')) :
    ∃ fn text, j = mkOkBody fn text := by
  cases body with
  | none => simp [extract_pdf] at h
  | some data =>
    cases hfn : pyGetItem data kFilename with
    | error e => simp [extract_pdf, hfn] at h
    | ok fn =>
      cases hfc : pyGetItem data kFilecontent with
      | error e => simp [extract_pdf, hfn, hfc] at h
      | ok fc =>
        cases fc with
        | str s =>
          cases hdec : env.b64decode s with
          | none => simp [extract_pdf, hfn, hfc, hdec] at h
          | some bs =>
            cases hext : env.pdfExtract bs with
            | none => simp [extract_pdf, hfn, hfc, hdec, hext] at h
            | some elems =>
              simp [extract_pdf, hfn, hfc, hdec, hext] at h
              exact ⟨fn, elems.filterMap keptText, h.1.symm⟩
        | null => simp [extract_pdf, hfn, hfc] at h
        | bool b => simp [extract_pdf, hfn, hfc] at h
        | num n => simp [extract_pdf, hfn, hfc] at h
        | arr xs => simp [extract_pdf, hfn, hfc] at h
        | obj flds => simp [extract_pdf, hfn, hfc] at h

/-- C10: every HTTP 200 response body is a JSON object with exactly the keys
`filename` and `text`, in that order, and no others. -/
theorem c10_exactly_two_keys (env : Env) (body : Option Json) (fs : FS)
    (h : (handle env body fs).1.status = 200) :
    ∃ fields : List (String × Json),
      (handle env body fs).1.body = some (Json.obj fields) ∧
      fields.map Prod.fst = [kFilename, kText] := by
  rcases hres : extract_pdf env body fs with ⟨r, fs'⟩
  cases r with
  | error e =>
    rw [handle, hres] at h
    simp at h
  | ok j =>
    obtain ⟨fn, text, hj⟩ := extract_pdf_ok_shape env body fs j fs' hres
    refine ⟨[(kFilename, fn), (kText, Json.arr (text.map Json.str))], ?_, rfl⟩
    rw [handle, hres, hj]
    rfl

/-- C10 witness at a concrete successful request. -/
theorem c10_witness :
    ∃ fields : List (String × Json),
      (handle envGood (some dataGood) fs0).1.body = some (Json.obj fields) ∧
      fields.map Prod.fst = [kFilename, kText] :=
  c10_exactly_two_keys envGood (some dataGood) fs0 rfl

end PdfText
